import Mathlib

/-!
Shallow embedding of the live-navigation core of the MUJ-UniWay repository:
the geolocation sample filter (`LocationService.applyFilters`, the
`watchPosition` success handler of `LocationService.startWatching`) and the
navigation engine (`NavigationService`: `startNavigation`, `stopNavigation`,
`handleLocationUpdate` with `checkOffRoute`, `updateNavigationProgress`,
`checkStepCompletion`, `advanceToNextStep`, `handleArrival`,
`recalculateRoute`, `notifyStateChange`).

Numbers are modelled as exact rationals.  The haversine great-circle
distance `LocationService.calculateDistance` is transcendental (sin, cos,
atan2 on floats); every function that consumes a distance is therefore
parameterised by an abstract distance function `dist`, which keeps the
whole development computable.  None of the verified properties depends on
the particular shape of the distance function.

Voice announcements are modelled as the ordered list of strings passed to
`announceInstruction`, and subscriber notifications as the ordered list of
session snapshots actually delivered by `notifyStateChange` (which in the
source broadcasts only when `this.navigationState` is non-null).
-/

namespace UniWay

/-- `LocationCoordinates` from `lib/geolocation.ts`: lat/lng/accuracy with
optional heading and speed. -/
structure LocationCoordinates where
  lat : ℚ
  lng : ℚ
  accuracy : ℚ
  heading : Option ℚ := none
  speed : Option ℚ := none
deriving DecidableEq

/-- `LocationError` from `lib/geolocation.ts`. -/
structure LocationError where
  code : ℤ
  message : String
deriving DecidableEq

/-- A point `{lat, lng}` (`RoutePoint` from `lib/routing.ts`, as used by
`lib/navigation.ts` for the destination). -/
structure RoutePoint where
  lat : ℚ
  lng : ℚ
deriving DecidableEq

/-- `RouteResponse` fields consumed by `lib/navigation.ts`:
`coordinates` (polyline vertices), `distance`, `duration`, `instructions`. -/
structure RouteResponse where
  coordinates : List (ℚ × ℚ)
  distance : ℚ
  duration : ℚ
  instructions : List String
deriving DecidableEq

/-- Abstract stand-in for `LocationService.calculateDistance` (haversine on
floats in the source). -/
abbrev Dist := LocationCoordinates → LocationCoordinates → ℚ

/-- Building a `LocationCoordinates` value `{lat, lng, accuracy: 0}` from a
polyline vertex, as `checkOffRoute` / `checkStepCompletion` do. -/
def coordOfVertex (p : ℚ × ℚ) : LocationCoordinates :=
  { lat := p.1, lng := p.2, accuracy := 0 }

/-- `{...destination, accuracy: 0}` as built in `updateNavigationProgress`. -/
def coordOfDestination (d : RoutePoint) : LocationCoordinates :=
  { lat := d.lat, lng := d.lng, accuracy := 0 }

/-! ## Location service (`lib/geolocation.ts`) -/

/-- The mutable fields of `LocationService` relevant to filtering, with the
source's default configuration values. -/
structure LocationServiceState where
  lastKnownLocation : Option LocationCoordinates := none
  lastUpdateTimestampMs : Option ℚ := none
  accuracyThresholdMeters : ℚ := 50
  smoothingFactor : ℚ := 1/4
  rejectJumpMeters : ℚ := 120
deriving DecidableEq

/-- `LocationService.applyFilters`: accuracy-degradation rejection, then
jump rejection, then EMA smoothing (source lines 422-471 of
`lib/geolocation.ts`).  `nowMs` models `Date.now()`. -/
def applyFilters (dist : Dist) (st : LocationServiceState) (nowMs : ℚ)
    (next : LocationCoordinates) : Option LocationCoordinates :=
  match st.lastKnownLocation with
  | none => some next
  | some prev =>
    if next.accuracy > max st.accuracyThresholdMeters (prev.accuracy + 25) then
      none
    else
      let jumpReject : Bool :=
        match st.lastUpdateTimestampMs with
        | none => false
        | some ts =>
          let dtSec := max (1/2 : ℚ) ((nowMs - ts) / 1000)
          let d := dist prev next
          let maxJump := st.rejectJumpMeters + next.accuracy
          decide (d > maxJump) && decide (dtSec < 3)
      if jumpReject then none
      else
        some
          { lat := prev.lat * (1 - st.smoothingFactor) +
              next.lat * st.smoothingFactor,
            lng := prev.lng * (1 - st.smoothingFactor) +
              next.lng * st.smoothingFactor,
            accuracy := min prev.accuracy next.accuracy,
            heading := (match next.heading with
              | some h => some h
              | none => prev.heading),
            speed := (match next.speed with
              | some s => some s
              | none => prev.speed) }

/-- Result of one `watchPosition` success callback (source lines 338-355 of
`lib/geolocation.ts`): the updated service state and the sample delivered to
the `onLocationUpdate` subscribers, if any. -/
structure WatchStepResult where
  state : LocationServiceState
  delivered : Option LocationCoordinates
deriving DecidableEq

/-- The `watchPosition` success handler installed by
`LocationService.startWatching`: filter the raw sample; on rejection drop it
silently; on acceptance update the last-known cache and timestamp, then
notify every location subscriber with the filtered sample. -/
def handleWatchSample (dist : Dist) (st : LocationServiceState) (nowMs : ℚ)
    (raw : LocationCoordinates) : WatchStepResult :=
  match applyFilters dist st nowMs raw with
  | none => { state := st, delivered := none }
  | some filtered =>
    let st' := { st with lastKnownLocation := some filtered,
                         lastUpdateTimestampMs := some nowMs }
    { state := st', delivered := some filtered }

/-! ## Navigation engine (`lib/navigation.ts`) -/

/-- `NavigationState` from `lib/navigation.ts`. -/
structure NavState where
  isNavigating : Bool
  currentStep : ℕ
  totalSteps : ℕ
  remainingDistance : ℚ
  remainingTime : ℚ
  nextInstruction : String
  currentLocation : Option LocationCoordinates
  destination : RoutePoint
  route : Option RouteResponse
  isOffRoute : Bool
  recalculatingRoute : Bool
deriving DecidableEq

/-- The mutable fields of `NavigationService` relevant to the session state
machine: the session (null in `Idle`) and `lastAnnouncedStep` (initially
`-1`). -/
structure EngineState where
  navigationState : Option NavState
  lastAnnouncedStep : ℤ
deriving DecidableEq

/-- The idle engine: no session, `lastAnnouncedStep = -1`. -/
def EngineState.idle : EngineState :=
  { navigationState := none, lastAnnouncedStep := -1 }

/-- `route.instructions[0] || "Head to destination"`: JavaScript `||`
falls through on `undefined` (empty list) and on the empty string. -/
def firstInstruction (r : RouteResponse) : String :=
  let h := r.instructions.headD ""
  if h = "" then "Head to destination" else h

/-- `notifyStateChange` (source lines 348-352): the broadcast delivered to
`onStateChange` subscribers — the full snapshot when a session exists,
nothing at all when `navigationState` is null. -/
def notifyEmit (e : EngineState) : List NavState :=
  match e.navigationState with
  | some s => [s]
  | none => []

/-- Result of `startNavigation`: the engine state afterwards, the voice
announcements and subscriber notifications issued, and the error rethrown
to the caller, if any. -/
structure StartResult where
  engine : EngineState
  announcements : List String
  notifications : List NavState
  error : Option LocationError
deriving DecidableEq

/-- The starting-location resolution of `startNavigation` (source lines
73-90): a cached sample is used when one exists and is less than 10 s old;
otherwise the fresh high-accuracy fetch decides, whose outcome is the
parameter `fetchResult` (the single-shot `getCurrentPosition` call). -/
def resolveStartLocation (loc : LocationServiceState) (nowMs : ℚ)
    (fetchResult : Except LocationError LocationCoordinates) :
    Except LocationError LocationCoordinates :=
  let isLocationStale : Bool :=
    match loc.lastUpdateTimestampMs with
    | none => true
    | some ts => decide (nowMs - ts > 10000)
  match loc.lastKnownLocation with
  | none => fetchResult
  | some c => if isLocationStale then fetchResult else .ok c

/-- `NavigationService.startNavigation` (source lines 68-133).  If location
resolution fails the error is rethrown and the session is never assigned —
the state initializer runs only after a location is in hand. -/
def startNavigation (e : EngineState) (loc : LocationServiceState)
    (nowMs : ℚ) (fetchResult : Except LocationError LocationCoordinates)
    (destination : RoutePoint) (route : RouteResponse) : StartResult :=
  match resolveStartLocation loc nowMs fetchResult with
  | .error err =>
    { engine := e, announcements := [], notifications := [],
      error := some err }
  | .ok currentLocation =>
    let ns : NavState :=
      { isNavigating := true,
        currentStep := 0,
        totalSteps := route.instructions.length,
        remainingDistance := route.distance,
        remainingTime := route.duration,
        nextInstruction := firstInstruction route,
        currentLocation := some currentLocation,
        destination := destination,
        route := some route,
        isOffRoute := false,
        recalculatingRoute := false }
    let e' := { e with navigationState := some ns }
    { engine := e',
      announcements := ["Navigation started. " ++ ns.nextInstruction],
      notifications := notifyEmit e',
      error := none }

/-- `NavigationService.stopNavigation` (source lines 136-146): stop the
watch, flip `isNavigating`, announce, null the session, reset
`lastAnnouncedStep`, then `notifyStateChange` — which broadcasts nothing
because the session is already null. -/
def stopNavigation (e : EngineState) :
    EngineState × List String × List NavState :=
  match e.navigationState with
  | none => (e, [], [])
  | some _ => (EngineState.idle, ["Navigation stopped"],
      notifyEmit EngineState.idle)

/-- Minimum distance from `loc` to the vertices of the route polyline,
starting from `Number.POSITIVE_INFINITY` as in `checkOffRoute`. -/
def minDistanceToRoute (dist : Dist) (coords : List (ℚ × ℚ))
    (loc : LocationCoordinates) : WithTop ℚ :=
  coords.foldl (fun m c => min m ((dist loc (coordOfVertex c) : ℚ) : WithTop ℚ)) ⊤

/-- `NavigationService.checkOffRoute` (source lines 177-201): recompute
`isOffRoute` from the minimum vertex distance against the 25 m threshold;
on the false→true edge announce "Off route. Recalculating..." and request a
recalculation (returned as the `Bool` component). -/
def checkOffRoute (dist : Dist) (ns : NavState) (loc : LocationCoordinates) :
    NavState × List String × Bool :=
  match ns.route with
  | none => (ns, [], false)
  | some route =>
    let minDist := minDistanceToRoute dist route.coordinates loc
    let wasOffRoute := ns.isOffRoute
    let nowOff : Bool := decide ((25 : ℚ) < minDist)
    let ns' := { ns with isOffRoute := nowOff }
    if !wasOffRoute && nowOff then
      (ns', ["Off route. Recalculating..."], true)
    else
      (ns', [], false)

/-- Outcome of the route provider call `getWalkingRoute` made by
`recalculateRoute`: a new route, a null result, or a thrown error. -/
inductive RecalcOutcome where
  | ok (r : RouteResponse)
  | noRoute
  | err
deriving DecidableEq

/-- Result of the asynchronous completion of `recalculateRoute`: either it
runs to the end of the `finally` block, or it faults with a TypeError by
dereferencing a null `navigationState`. -/
inductive RecalcCompletion where
  | done (engine : EngineState) (announcements : List String)
      (notifications : List NavState)
  | fault (engine : EngineState) (announcements : List String)
deriving DecidableEq

/-- The engine state after a recalculation completion, faulted or not. -/
def RecalcCompletion.engineState : RecalcCompletion → EngineState
  | .done e _ _ => e
  | .fault e _ => e

/-- The continuation of `NavigationService.recalculateRoute` (source lines
204-243) that runs when the awaited `getWalkingRoute` call settles.  If the
session still exists: on a new route replace it and reset progress and
announcement tracking, on a thrown error announce the degraded-continue
message, on a null route do neither; in all three cases the `finally` block
clears `recalculatingRoute` and notifies.  If the session was discarded
while the request was in flight (`stopNavigation` ran), the source has no
session-identity guard: the member writes `this.navigationState.route = …` /
`this.navigationState.recalculatingRoute = false` throw a TypeError on the
null session (the one in the `finally` block escapes the `catch`), so the
completion faults; the session itself is never reassigned and stays null. -/
def recalcComplete (e : EngineState) (outcome : RecalcOutcome) :
    RecalcCompletion :=
  match e.navigationState with
  | none =>
    match outcome with
    | .ok _ =>
      .fault e ["Unable to recalculate route. Continue to destination."]
    | .noRoute => .fault e []
    | .err =>
      .fault e ["Unable to recalculate route. Continue to destination."]
  | some ns =>
    match outcome with
    | .ok r =>
      let ns' : NavState :=
        { ns with
            route := some r,
            currentStep := 0,
            totalSteps := r.instructions.length,
            remainingDistance := r.distance,
            remainingTime := r.duration,
            nextInstruction := firstInstruction r,
            isOffRoute := false,
            recalculatingRoute := false }
      let e' : EngineState :=
        { navigationState := some ns', lastAnnouncedStep := -1 }
      .done e' ["Route recalculated. " ++ ns'.nextInstruction] [ns']
    | .noRoute =>
      let ns' := { ns with recalculatingRoute := false }
      .done { e with navigationState := some ns' } [] [ns']
    | .err =>
      let ns' := { ns with recalculatingRoute := false }
      .done { e with navigationState := some ns' }
        ["Unable to recalculate route. Continue to destination."] [ns']

/-- `NavigationService.handleArrival` (source lines 318-323): announce
arrival, then `stopNavigation`. -/
def handleArrival (e : EngineState) :
    EngineState × List String × List NavState :=
  match e.navigationState with
  | none => (e, [], [])
  | some _ =>
    let (e', a, n) := stopNavigation e
    (e', "You have arrived at your destination" :: a, n)

/-- `NavigationService.updateNavigationProgress` (source lines 246-263):
recompute remaining distance to the fixed destination and remaining time at
1.4 m/s; if the remaining distance is below 10 m, run arrival handling. -/
def updateNavigationProgress (dist : Dist) (e : EngineState)
    (loc : LocationCoordinates) : EngineState × List String × List NavState :=
  match e.navigationState with
  | none => (e, [], [])
  | some ns =>
    match ns.route with
    | none => (e, [], [])
    | some _ =>
      let remainingDistance := dist loc (coordOfDestination ns.destination)
      let ns' := { ns with remainingDistance := remainingDistance,
                           remainingTime := remainingDistance / (7/5) }
      let e' := { e with navigationState := some ns' }
      if remainingDistance < 10 then handleArrival e'
      else (e', [], [])

/-- `NavigationService.advanceToNextStep` (source lines 295-315): increment
`currentStep`; when the new index is within the instruction list, update
`nextInstruction` and announce it unless this index was the last announced
one. -/
def advanceToNextStep (e : EngineState) : EngineState × List String :=
  match e.navigationState with
  | none => (e, [])
  | some ns =>
    match ns.route with
    | none => (e, [])
    | some route =>
      let cs := ns.currentStep + 1
      let ns' := { ns with currentStep := cs }
      if h : cs < route.instructions.length then
        let instr := route.instructions.get ⟨cs, h⟩
        let ns'' := { ns' with nextInstruction := instr }
        if (cs : ℤ) ≠ e.lastAnnouncedStep then
          ({ navigationState := some ns'', lastAnnouncedStep := (cs : ℤ) },
            [instr])
        else
          ({ e with navigationState := some ns'' }, [])
      else
        ({ e with navigationState := some ns' }, [])

/-- `NavigationService.checkStepCompletion` (source lines 266-292).  The
guard `currentStep < instructions.length - 1` is JavaScript number
arithmetic; with `currentStep ≥ 0` it is equivalent to
`currentStep + 1 < instructions.length`.  The `Bool` component records the
TypeError the source raises when the route has an empty coordinate list
(`coordinates[-1]` is `undefined` and `nextWaypoint[0]` throws); the state
is unchanged in that case because the throw happens before any mutation. -/
def checkStepCompletion (dist : Dist) (e : EngineState)
    (loc : LocationCoordinates) : EngineState × List String × Bool :=
  match e.navigationState with
  | none => (e, [], false)
  | some ns =>
    match ns.route with
    | none => (e, [], false)
    | some route =>
      if ns.currentStep + 1 < route.instructions.length then
        let nextStepIndex :=
          min (ns.currentStep + 1) (route.coordinates.length - 1)
        match route.coordinates.get? nextStepIndex with
        | none => (e, [], true)
        | some w =>
          let distanceToNext := dist loc (coordOfVertex w)
          if distanceToNext < 20 then
            let (e', a) := advanceToNextStep e
            (e', a, false)
          else (e, [], false)
      else (e, [], false)

/-- The off-route phase of one location update: run `checkOffRoute`; when
it requests a recalculation, the synchronous prefix of `recalculateRoute`
(up to its first `await`) also runs inside the same update — it sets
`recalculatingRoute := true` and immediately notifies.  Returns the
resulting session, the announcements, and the notifications delivered. -/
def afterOffRoute (dist : Dist) (ns : NavState) (loc : LocationCoordinates) :
    NavState × List String × List NavState :=
  let step1 := checkOffRoute dist ns loc
  if step1.2.2 then
    ({ step1.1 with recalculatingRoute := true },
      step1.2.1, [{ step1.1 with recalculatingRoute := true }])
  else (step1.1, step1.2.1, [])

/-- Result of `handleLocationUpdate`: engine state, announcements issued,
snapshots delivered to state-change subscribers, and whether the update
faulted (empty-coordinates TypeError in `checkStepCompletion`, which skips
the final `notifyStateChange`). -/
structure UpdateResult where
  engine : EngineState
  announcements : List String
  notifications : List NavState
  faulted : Bool
deriving DecidableEq

/-- The body of `handleLocationUpdate` for a session with
`isNavigating = true`: off-route check, progress update and step-completion
check in order, then the final `notifyStateChange`; a step-completion
TypeError (empty coordinates) aborts before the final notification. -/
def updatePipeline (dist : Dist) (e : EngineState) (ns : NavState)
    (loc : LocationCoordinates) : UpdateResult :=
  let s1 := afterOffRoute dist { ns with currentLocation := some loc } loc
  let e1 : EngineState := { e with navigationState := some s1.1 }
  let s2 := updateNavigationProgress dist e1 loc
  let s3 := checkStepCompletion dist s2.1 loc
  if s3.2.2 then
    { engine := s3.1, announcements := s1.2.1 ++ s2.2.1 ++ s3.2.1,
      notifications := s1.2.2 ++ s2.2.2, faulted := true }
  else
    { engine := s3.1, announcements := s1.2.1 ++ s2.2.1 ++ s3.2.1,
      notifications := s1.2.2 ++ s2.2.2 ++ notifyEmit s3.1,
      faulted := false }

/-- `NavigationService.handleLocationUpdate` (source lines 149-166): no-op
without a session or while not navigating; otherwise run the update
pipeline.  The recalculation requested by the off-route check continues
asynchronously; its completion is modelled separately by
`recalcComplete`. -/
def handleLocationUpdate (dist : Dist) (e : EngineState)
    (loc : LocationCoordinates) : UpdateResult :=
  match e.navigationState with
  | none =>
    { engine := e, announcements := [], notifications := [], faulted := false }
  | some ns =>
    if !ns.isNavigating then
      { engine := e, announcements := [], notifications := [], faulted := false }
    else
      updatePipeline dist e ns loc

/-! ## Derived definitions used to state the verified properties -/

/-- Iterating `checkOffRoute` over a sequence of location updates, counting
the announcements issued and the recalculation requests made (the off-route
subsystem of consecutive `handleLocationUpdate` calls). -/
def offRouteSeq (dist : Dist) (ns : NavState) :
    List LocationCoordinates → NavState × ℕ × ℕ
  | [] => (ns, 0, 0)
  | l :: ls =>
    let s := checkOffRoute dist ns l
    let rest := offRouteSeq dist s.1 ls
    (rest.1, s.2.1.length + rest.2.1, (cond s.2.2 1 0) + rest.2.2)

/-- The session stored by the success branch of `recalculateRoute`: the new
route installed, progress reset and recomputed, `isOffRoute` cleared, and
(after the `finally` block) `recalculatingRoute` cleared. -/
def recalcSuccessSession (ns : NavState) (r : RouteResponse) : NavState :=
  { ns with
      route := some r, currentStep := 0,
      totalSteps := r.instructions.length,
      remainingDistance := r.distance, remainingTime := r.duration,
      nextInstruction := firstInstruction r,
      isOffRoute := false, recalculatingRoute := false }

/-- The session after a failed or null recalculation: only
`recalculatingRoute` cleared by the `finally` block. -/
def recalcClearedSession (ns : NavState) : NavState :=
  { ns with recalculatingRoute := false }

/-- The step-index invariant of one session: `currentStep ≤ totalSteps`
(`0 ≤ currentStep` is carried by the type `ℕ`), and `totalSteps` is the
length of the active route's instruction list. -/
def SessionInv (ns : NavState) : Prop :=
  ns.currentStep ≤ ns.totalSteps ∧
  ∀ r, ns.route = some r → ns.totalSteps = r.instructions.length

/-- The step-index invariant of the engine: every live session satisfies
`SessionInv`; the idle engine satisfies it vacuously. -/
def StepIndexInv (e : EngineState) : Prop :=
  ∀ ns, e.navigationState = some ns → SessionInv ns

/-! ## Concrete fixtures for witnesses and counterexamples -/

/-- A distance function that always returns 0 m (every point on top of
every other). -/
def flatDist : Dist := fun _ _ => 0

/-- A distance function that always returns 30 m (every point 30 m from
every route vertex and from the destination). -/
def farDist : Dist := fun _ _ => 30

/-- A one-step route fixture. -/
def routeW : RouteResponse :=
  { coordinates := [(0, 0)], distance := 100, duration := 70,
    instructions := ["Go"] }

/-- An active session fixture on `routeW`. -/
def nsW : NavState :=
  { isNavigating := true, currentStep := 0, totalSteps := 1,
    remainingDistance := 100, remainingTime := 70, nextInstruction := "Go",
    currentLocation := none, destination := ⟨0, 0⟩, route := some routeW,
    isOffRoute := false, recalculatingRoute := false }

/-- An engine fixture holding the session `nsW`. -/
def eW : EngineState := { navigationState := some nsW, lastAnnouncedStep := -1 }

/-- A location sample fixture. -/
def locW : LocationCoordinates := { lat := 0, lng := 0, accuracy := 5 }

/-- A distance function that is 30 m to the destination fixture at
latitude 9 and 0 m to every other point (so the fixture session is on
route and does not arrive). -/
def destDist : Dist := fun _ p => if p.lat = 9 then 30 else 0

/-- The session fixture with a destination at `(9, 9)`. -/
def nsW9 : NavState := { nsW with destination := ⟨9, 9⟩ }

/-- An engine fixture holding the session `nsW9`. -/
def eW9 : EngineState :=
  { navigationState := some nsW9, lastAnnouncedStep := -1 }

/-- The snapshot produced by one `handleLocationUpdate` of `eW9` with
`destDist` at `locW`: on route, 30 m remaining. -/
def sW9 : NavState :=
  { nsW9 with
      currentLocation := some locW,
      remainingDistance := 30,
      remainingTime := 30 / (7/5) }

/-- A previously accepted 5 m-accuracy sample fixture. -/
def prevFix : LocationCoordinates := { lat := 10, lng := 20, accuracy := 5 }

/-- A location-service state holding `prevFix` with default filter
configuration. -/
def stFix : LocationServiceState :=
  { lastKnownLocation := some prevFix, lastUpdateTimestampMs := some 0 }

/-- A 90 m-accuracy raw sample (markedly worse than `prevFix`). -/
def badFix : LocationCoordinates := { lat := 10, lng := 20, accuracy := 90 }

/-- A displaced sample with the same 5 m accuracy, for the smoothing
fixture. -/
def stepFix : LocationCoordinates := { lat := 11, lng := 21, accuracy := 5 }

/-- The EMA-smoothed sample of `prevFix` toward `stepFix` at factor 1/4. -/
def smoothedFix : LocationCoordinates := { lat := 41/4, lng := 81/4, accuracy := 5 }

/-- A 40 m-accuracy sample at the cached position (accepted, genuinely less
precise). -/
def okFix : LocationCoordinates := { lat := 10, lng := 20, accuracy := 40 }

/-- A 60 m-accuracy sample: rejected against the retained 5 m accuracy,
though it would pass against the latest raw 40 m accuracy. -/
def deg60Fix : LocationCoordinates := { lat := 10, lng := 20, accuracy := 60 }

/-- A `PositionUnavailable`-style error fixture. -/
def errFix : LocationError := { code := 2, message := "Location information unavailable" }

/-! ## Verified properties -/

/-- C6: if a previously accepted sample exists and the raw next sample's
accuracy exceeds `max(50, previous.accuracy + 25)`, `applyFilters` rejects
it (returns none), and the `watchPosition` handler leaves the last-known
location and its timestamp unchanged and delivers no callback for that
sample. -/
theorem filter_rejects_degraded_accuracy (dist : Dist)
    (st : LocationServiceState) (prev next : LocationCoordinates) (nowMs : ℚ)
    (hprev : st.lastKnownLocation = some prev)
    (hthr : st.accuracyThresholdMeters = 50)
    (hacc : next.accuracy > max 50 (prev.accuracy + 25)) :
    applyFilters dist st nowMs next = none ∧
    handleWatchSample dist st nowMs next = { state := st, delivered := none } := by
  have hn : applyFilters dist st nowMs next = none := by
    simp only [applyFilters, hprev, hthr]
    rw [if_pos hacc]
  refine ⟨hn, ?_⟩
  unfold handleWatchSample
  rw [hn]

/-- Witness for C6: a 90 m-accuracy sample after a cached 5 m fix is
dropped with no state change and no subscriber callback. -/
theorem filter_rejects_degraded_accuracy_witness :
    applyFilters flatDist stFix 1000 badFix = none ∧
    handleWatchSample flatDist stFix 1000 badFix =
      { state := stFix, delivered := none } :=
  filter_rejects_degraded_accuracy flatDist stFix prevFix badFix 1000
    (by rfl) (by rfl) (by norm_num [badFix, prevFix])

/-- C9: when a sample `x` is accepted over a cached sample `prev` with the
default smoothing factor 1/4, the smoothed output lies componentwise
strictly between the cached value and `x` (or at `x` when they agree), and
the componentwise gap to `x` shrinks by the factor `1 - 1/4 = 3/4`; for a
constant repeated input this is a monotonic, overshoot-free approach. -/
theorem smoothing_monotonic_approach (dist : Dist)
    (st : LocationServiceState) (prev x s : LocationCoordinates) (nowMs : ℚ)
    (hprev : st.lastKnownLocation = some prev)
    (halpha : st.smoothingFactor = 1/4)
    (hacc : applyFilters dist st nowMs x = some s) :
    (s.lat - x.lat = (3/4) * (prev.lat - x.lat) ∧
      s.lng - x.lng = (3/4) * (prev.lng - x.lng)) ∧
    (prev.lat ≠ x.lat →
      min prev.lat x.lat < s.lat ∧ s.lat < max prev.lat x.lat) ∧
    (prev.lng ≠ x.lng →
      min prev.lng x.lng < s.lng ∧ s.lng < max prev.lng x.lng) ∧
    (prev.lat = x.lat → s.lat = x.lat) ∧
    (prev.lng = x.lng → s.lng = x.lng) := by
  simp only [applyFilters, hprev] at hacc
  split at hacc
  · exact absurd hacc (by simp)
  · split at hacc
    · exact absurd hacc (by simp)
    · obtain rfl := Option.some.inj hacc
      dsimp only
      rw [halpha]
      refine ⟨⟨by ring, by ring⟩, ?_, ?_, ?_, ?_⟩
      · intro hne
        rcases hne.lt_or_lt with hlt | hgt
        · rw [min_eq_left hlt.le, max_eq_right hlt.le]
          constructor <;> linarith
        · rw [min_eq_right hgt.le, max_eq_left hgt.le]
          constructor <;> linarith
      · intro hne
        rcases hne.lt_or_lt with hlt | hgt
        · rw [min_eq_left hlt.le, max_eq_right hlt.le]
          constructor <;> linarith
        · rw [min_eq_right hgt.le, max_eq_left hgt.le]
          constructor <;> linarith
      · intro h; rw [h]; ring
      · intro h; rw [h]; ring

/-- Witness for C9: smoothing `prevFix = (10, 20)` toward
`stepFix = (11, 21)` yields `(41/4, 81/4)`, strictly between the cached
point and the input, with the gap scaled by 3/4. -/
theorem smoothing_monotonic_approach_witness :
    (smoothedFix.lat - stepFix.lat = (3/4) * (prevFix.lat - stepFix.lat) ∧
      smoothedFix.lng - stepFix.lng = (3/4) * (prevFix.lng - stepFix.lng)) ∧
    (min prevFix.lat stepFix.lat < smoothedFix.lat ∧
      smoothedFix.lat < max prevFix.lat stepFix.lat) := by
  have h := smoothing_monotonic_approach flatDist stFix prevFix stepFix
    smoothedFix 1000 (by rfl) (by rfl)
    (by simp only [applyFilters, stFix, prevFix, stepFix, smoothedFix, flatDist]
        norm_num)
  exact ⟨h.1, h.2.1 (by norm_num [prevFix, stepFix])⟩

/-- C10: an accepted sample over an existing cached sample stores accuracy
`min(previous.accuracy, next.accuracy)` — never larger than the cached
accuracy — and the next accuracy-rejection decision compares the incoming
accuracy against `max(50, retainedAccuracy + 25)` with this retained
best-ever value, not the latest raw one. -/
theorem accuracy_min_retention (dist : Dist) (st : LocationServiceState)
    (prev next s : LocationCoordinates) (nowMs : ℚ)
    (hprev : st.lastKnownLocation = some prev)
    (hthr : st.accuracyThresholdMeters = 50)
    (hacc : applyFilters dist st nowMs next = some s) :
    s.accuracy = min prev.accuracy next.accuracy ∧
    s.accuracy ≤ prev.accuracy ∧
    ∀ nowMs2 next2, next2.accuracy > max 50 (s.accuracy + 25) →
      applyFilters dist (handleWatchSample dist st nowMs next).state nowMs2
        next2 = none := by
  have hstate : (handleWatchSample dist st nowMs next).state =
      { st with
          lastKnownLocation := some s,
          lastUpdateTimestampMs := some nowMs } := by
    unfold handleWatchSample
    rw [hacc]
  have hsacc : s.accuracy = min prev.accuracy next.accuracy := by
    simp only [applyFilters, hprev] at hacc
    split at hacc
    · exact absurd hacc (by simp)
    · split at hacc
      · exact absurd hacc (by simp)
      · obtain rfl := Option.some.inj hacc
        rfl
  refine ⟨hsacc, hsacc ▸ min_le_left _ _, ?_⟩
  intro nowMs2 next2 h2
  rw [hstate]
  simp only [applyFilters]
  rw [if_pos]
  exact hthr ▸ h2

/-- Witness for C10: a 40 m fix accepted after a cached 5 m fix is stored
with accuracy 5, and a following 60 m sample is rejected against
`max(50, 5 + 25) = 50` (it would pass against the raw 40 m accuracy, whose
threshold would be 65). -/
theorem accuracy_min_retention_witness :
    prevFix.accuracy = min prevFix.accuracy okFix.accuracy ∧
    applyFilters flatDist (handleWatchSample flatDist stFix 1000 okFix).state
      2000 deg60Fix = none := by
  have h := accuracy_min_retention flatDist stFix prevFix okFix prevFix 1000
    (by rfl) (by rfl)
    (by simp only [applyFilters, stFix, prevFix, okFix, flatDist]
        norm_num)
  exact ⟨h.1, h.2.2 2000 deg60Fix (by norm_num [deg60Fix, prevFix, max_lt_iff])⟩

/-- C1: when no cached starting location is usable (no cached sample, no
timestamp, or the cached sample is older than 10 s) and the fresh
high-accuracy fetch fails, `startNavigation` rethrows the error, creates no
session, performs no announcement and no notification, and the engine stays
`Idle` (`getNavigationState` remains none, `isNavigating` is never set). -/
theorem start_navigation_location_failure_idle (e : EngineState)
    (loc : LocationServiceState) (nowMs : ℚ) (err : LocationError)
    (destination : RoutePoint) (route : RouteResponse)
    (hidle : e.navigationState = none)
    (hnocache : loc.lastKnownLocation = none ∨
      loc.lastUpdateTimestampMs = none ∨
      ∃ ts, loc.lastUpdateTimestampMs = some ts ∧ nowMs - ts > 10000) :
    startNavigation e loc nowMs (.error err) destination route =
      { engine := e, announcements := [], notifications := [],
        error := some err } ∧
    (startNavigation e loc nowMs
      (.error err) destination route).engine.navigationState = none := by
  have hres : resolveStartLocation loc nowMs (.error err) = .error err := by
    unfold resolveStartLocation
    rcases hc : loc.lastKnownLocation with _ | c
    · simp only [hc]
    · have hstale : (match loc.lastUpdateTimestampMs with
          | none => true
          | some ts => decide (nowMs - ts > 10000)) = true := by
        rcases hnocache with h | h | ⟨ts, hts, hgt⟩
        · rw [h] at hc; exact absurd hc (by simp)
        · rw [h]
        · rw [hts]; exact decide_eq_true hgt
      simp only [hc, hstale, if_true]
  have hmain : startNavigation e loc nowMs (.error err) destination route =
      { engine := e, announcements := [], notifications := [],
        error := some err } := by
    unfold startNavigation
    rw [hres]
  exact ⟨hmain, by rw [hmain]; exact hidle⟩

/-- Witness for C1: starting from `Idle` with an empty location cache and a
failed fetch returns the error and leaves the engine `Idle`. -/
theorem start_navigation_location_failure_idle_witness :
    startNavigation EngineState.idle {} 0 (.error errFix) ⟨0, 0⟩ routeW =
      { engine := EngineState.idle, announcements := [], notifications := [],
        error := some errFix } ∧
    (startNavigation EngineState.idle {} 0 (.error errFix) ⟨0, 0⟩
      routeW).engine.navigationState = none :=
  start_navigation_location_failure_idle EngineState.idle {} 0 errFix ⟨0, 0⟩
    routeW (by rfl) (Or.inl (by rfl))

/-- C4 (code defect): the source has no session-identity guard in
`recalculateRoute`; when the awaited route request settles after
`stopNavigation` has discarded the session, the completion dereferences the
null `navigationState` (`this.navigationState.recalculatingRoute = false`
in the `finally` block, and `this.navigationState.route = newRoute` on the
success path) and faults with a TypeError instead of detecting and
discarding the result; the session itself is never reassigned, so the
engine does stay `Idle`. -/
theorem recalc_completion_after_stop_faults (l : ℤ) (outcome : RecalcOutcome) :
    (∃ a, recalcComplete { navigationState := none, lastAnnouncedStep := l }
        outcome =
      .fault { navigationState := none, lastAnnouncedStep := l } a) ∧
    (recalcComplete { navigationState := none, lastAnnouncedStep := l }
        outcome).engineState.navigationState = none := by
  cases outcome <;> exact ⟨⟨_, rfl⟩, rfl⟩

/-- With no route, `checkOffRoute` leaves the session unchanged. -/
theorem checkOffRoute_fst_none (dist : Dist) (ns : NavState)
    (loc : LocationCoordinates) (hr : ns.route = none) :
    (checkOffRoute dist ns loc).1 = ns := by
  unfold checkOffRoute
  simp only [hr]

/-- The session `checkOffRoute` stores: only `isOffRoute` recomputed from
the 25 m minimum-vertex-distance test. -/
theorem checkOffRoute_fst_some (dist : Dist) (ns : NavState)
    (loc : LocationCoordinates) (r : RouteResponse) (hr : ns.route = some r) :
    (checkOffRoute dist ns loc).1 =
      { ns with isOffRoute :=
          decide ((25 : ℚ) < minDistanceToRoute dist r.coordinates loc) } := by
  unfold checkOffRoute
  simp only [hr]
  split <;> rfl

/-- The outputs of `checkOffRoute`: announcement and recalculation request
exactly on the false→true edge of the 25 m test. -/
theorem checkOffRoute_snd (dist : Dist) (ns : NavState)
    (loc : LocationCoordinates) (r : RouteResponse) (hr : ns.route = some r) :
    (checkOffRoute dist ns loc).2 =
      if !ns.isOffRoute &&
          decide ((25 : ℚ) < minDistanceToRoute dist r.coordinates loc)
      then (["Off route. Recalculating..."], true) else ([], false) := by
  unfold checkOffRoute
  simp only [hr]
  split <;> rfl

/-- While `isOffRoute` is already true, further off-route updates announce
nothing and request no recalculation. -/
theorem offRouteSeq_stays_silent (dist : Dist) (r : RouteResponse)
    (ls : List LocationCoordinates) :
    ∀ ns : NavState, ns.route = some r → ns.isOffRoute = true →
      (∀ x ∈ ls, (25 : ℚ) < minDistanceToRoute dist r.coordinates x) →
      (offRouteSeq dist ns ls).2 = (0, 0) := by
  induction ls with
  | nil => intro ns _ _ _; rfl
  | cons l ls ih =>
    intro ns hr hoff hall
    have hsnd := checkOffRoute_snd dist ns l r hr
    rw [if_neg (by rw [hoff]; simp)] at hsnd
    have h1 : (checkOffRoute dist ns l).2.1 = [] := by rw [hsnd]
    have h2 : (checkOffRoute dist ns l).2.2 = false := by rw [hsnd]
    have hfst : (checkOffRoute dist ns l).1 =
        { ns with isOffRoute := true } := by
      rw [checkOffRoute_fst_some dist ns l r hr,
        decide_eq_true (hall l (by simp))]
    have ih' := ih { ns with isOffRoute := true } hr rfl
      (fun x hx => hall x (List.mem_cons_of_mem _ hx))
    have i1 : (offRouteSeq dist { ns with isOffRoute := true } ls).2.1 = 0 := by
      rw [ih']
    have i2 : (offRouteSeq dist { ns with isOffRoute := true } ls).2.2 = 0 := by
      rw [ih']
    unfold offRouteSeq
    dsimp only
    rw [h1, h2, hfst, i1, i2]
    rfl

/-- C2: per update, `checkOffRoute` announces "Off route. Recalculating..."
and requests a recalculation exactly when `isOffRoute` transitions from
false to true (minimum vertex distance above 25 m); over any contiguous
sequence of off-route updates starting on-route, the announcement and the
request are each issued exactly once. -/
theorem off_route_announced_once_per_interval (dist : Dist) (ns : NavState)
    (r : RouteResponse) (hroute : ns.route = some r) :
    (∀ loc, (checkOffRoute dist ns loc).2 =
      if !ns.isOffRoute &&
          decide ((25 : ℚ) < minDistanceToRoute dist r.coordinates loc)
      then (["Off route. Recalculating..."], true) else ([], false)) ∧
    (ns.isOffRoute = false → ∀ l ls,
      (∀ x ∈ l :: ls, (25 : ℚ) < minDistanceToRoute dist r.coordinates x) →
      (offRouteSeq dist ns (l :: ls)).2 = (1, 1)) := by
  refine ⟨fun loc => checkOffRoute_snd dist ns loc r hroute, ?_⟩
  intro hoff l ls hall
  have hsnd := checkOffRoute_snd dist ns l r hroute
  rw [if_pos (by rw [hoff]; simpa using hall l (by simp))] at hsnd
  have h1 : (checkOffRoute dist ns l).2.1 =
      ["Off route. Recalculating..."] := by rw [hsnd]
  have h2 : (checkOffRoute dist ns l).2.2 = true := by rw [hsnd]
  have hfst : (checkOffRoute dist ns l).1 =
      { ns with isOffRoute := true } := by
    rw [checkOffRoute_fst_some dist ns l r hroute,
      decide_eq_true (hall l (by simp))]
  have hrest := offRouteSeq_stays_silent dist r ls
    { ns with isOffRoute := true } hroute rfl
    (fun x hx => hall x (List.mem_cons_of_mem _ hx))
  have i1 : (offRouteSeq dist { ns with isOffRoute := true } ls).2.1 = 0 := by
    rw [hrest]
  have i2 : (offRouteSeq dist { ns with isOffRoute := true } ls).2.2 = 0 := by
    rw [hrest]
  unfold offRouteSeq
  dsimp only
  rw [h1, h2, hfst, i1, i2]
  rfl

/-- Witness for C2: with every point 30 m from the single route vertex, two
consecutive off-route updates announce once and request one recalculation,
and the first update's outputs are exactly the announcement and the
request. -/
theorem off_route_announced_once_per_interval_witness :
    (offRouteSeq farDist nsW [locW, locW]).2 = (1, 1) ∧
    (checkOffRoute farDist nsW locW).2 =
      (["Off route. Recalculating..."], true) := by
  have h := off_route_announced_once_per_interval farDist nsW routeW (by rfl)
  have hd : ∀ x : LocationCoordinates,
      (25 : ℚ) < minDistanceToRoute farDist routeW.coordinates x := by
    intro x
    have : minDistanceToRoute farDist routeW.coordinates x =
        ((30 : ℚ) : WithTop ℚ) := by
      simp [minDistanceToRoute, farDist, routeW]
    rw [this]
    exact_mod_cast (by norm_num : (25 : ℚ) < 30)
  refine ⟨h.2 (by rfl) locW [locW] (fun x _ => hd x), ?_⟩
  rw [h.1 locW, if_pos (by simp only [nsW]; simpa using hd locW)]

/-- C3: with a live session, recalculation completion behaves as follows.
On a new route: the route is replaced, `currentStep` resets to 0,
`totalSteps`/`remainingDistance`/`remainingTime`/`nextInstruction` are
recomputed from the new route, `isOffRoute` is cleared, step-announcement
tracking (`lastAnnouncedStep`) resets to −1, and "Route recalculated." plus
the first instruction is announced.  On a thrown provider error: "Unable to
recalculate route. Continue to destination." is announced and the stale
route is kept with `isOffRoute` untouched.  In every outcome
`recalculatingRoute` is cleared and the final session snapshot is the one
notification delivered, as the final step. -/
theorem recalculate_route_outcome_spec (e : EngineState) (ns : NavState)
    (h : e.navigationState = some ns) :
    (∀ r, recalcComplete e (.ok r) =
      .done
        { navigationState := some (recalcSuccessSession ns r),
          lastAnnouncedStep := -1 }
        ["Route recalculated. " ++ firstInstruction r]
        [recalcSuccessSession ns r]) ∧
    (recalcComplete e .err =
      .done { e with navigationState := some (recalcClearedSession ns) }
        ["Unable to recalculate route. Continue to destination."]
        [recalcClearedSession ns]) ∧
    (recalcComplete e .noRoute =
      .done { e with navigationState := some (recalcClearedSession ns) }
        [] [recalcClearedSession ns]) ∧
    (∀ r, (recalcSuccessSession ns r).recalculatingRoute = false) ∧
    (recalcClearedSession ns).route = ns.route ∧
    (recalcClearedSession ns).isOffRoute = ns.isOffRoute ∧
    (recalcClearedSession ns).recalculatingRoute = false := by
  refine ⟨fun r => ?_, ?_, ?_, fun r => rfl, rfl, rfl, rfl⟩ <;>
    simp only [recalcComplete, h, recalcSuccessSession, recalcClearedSession]

/-- Witness for C3: a failed recalculation on the live fixture session
keeps the stale route, announces the degraded-continue message, clears
`recalculatingRoute` and notifies that final snapshot. -/
theorem recalculate_route_outcome_spec_witness :
    recalcComplete eW .err =
      .done { eW with navigationState := some (recalcClearedSession nsW) }
        ["Unable to recalculate route. Continue to destination."]
        [recalcClearedSession nsW] :=
  (recalculate_route_outcome_spec eW nsW (by rfl)).2.1

/-- `checkOffRoute` recomputes only `isOffRoute`; the other session fields
are untouched. -/
theorem checkOffRoute_preserves (dist : Dist) (ns : NavState)
    (loc : LocationCoordinates) :
    (checkOffRoute dist ns loc).1.route = ns.route ∧
    (checkOffRoute dist ns loc).1.destination = ns.destination ∧
    (checkOffRoute dist ns loc).1.currentStep = ns.currentStep ∧
    (checkOffRoute dist ns loc).1.totalSteps = ns.totalSteps ∧
    (checkOffRoute dist ns loc).1.isNavigating = ns.isNavigating := by
  unfold checkOffRoute
  rcases hr : ns.route with _ | r
  · simp [hr]
  · simp only [hr]
    split <;> simp

/-- The off-route phase touches only `isOffRoute` and
`recalculatingRoute`. -/
theorem afterOffRoute_preserves (dist : Dist) (ns : NavState)
    (loc : LocationCoordinates) :
    (afterOffRoute dist ns loc).1.route = ns.route ∧
    (afterOffRoute dist ns loc).1.destination = ns.destination ∧
    (afterOffRoute dist ns loc).1.currentStep = ns.currentStep ∧
    (afterOffRoute dist ns loc).1.totalSteps = ns.totalSteps ∧
    (afterOffRoute dist ns loc).1.isNavigating = ns.isNavigating := by
  obtain ⟨h1, h2, h3, h4, h5⟩ := checkOffRoute_preserves dist ns loc
  simp only [afterOffRoute]
  split <;> exact ⟨h1, h2, h3, h4, h5⟩

/-- `checkStepCompletion` is inert on the idle engine. -/
theorem checkStepCompletion_idle (dist : Dist) (loc : LocationCoordinates) :
    checkStepCompletion dist EngineState.idle loc =
      (EngineState.idle, [], false) := rfl

/-- A location update of a live navigating session runs the update
pipeline. -/
theorem handleLocationUpdate_main (dist : Dist) (e : EngineState)
    (ns : NavState) (loc : LocationCoordinates)
    (h : e.navigationState = some ns) (hnav : ns.isNavigating = true) :
    handleLocationUpdate dist e loc = updatePipeline dist e ns loc := by
  unfold handleLocationUpdate
  simp only [h]
  rw [if_neg (by rw [hnav]; simp)]

/-- When the distance to the destination drops below 10 m, the progress
update announces arrival and then stops navigation: the engine goes
`Idle`, the announcements are the arrival message followed by "Navigation
stopped", and no notification is broadcast (the session is already null
when `notifyStateChange` runs). -/
theorem updateNavigationProgress_arrival (dist : Dist) (e : EngineState)
    (ns : NavState) (loc : LocationCoordinates) (r : RouteResponse)
    (h : e.navigationState = some ns) (hr : ns.route = some r)
    (hd : dist loc (coordOfDestination ns.destination) < 10) :
    updateNavigationProgress dist e loc =
      (EngineState.idle,
        ["You have arrived at your destination", "Navigation stopped"],
        []) := by
  unfold updateNavigationProgress
  simp only [h, hr]
  rw [if_pos hd]
  rfl

/-- C5: a location update of an active session that brings the current
location within 10 m of the destination ends with no session
(`isNavigating` can no longer be observed true), and the announcement
stream of that update ends with "You have arrived at your destination"
immediately followed by "Navigation stopped". -/
theorem arrival_announces_then_stops (dist : Dist) (e : EngineState)
    (ns : NavState) (loc : LocationCoordinates) (r : RouteResponse)
    (h : e.navigationState = some ns) (hnav : ns.isNavigating = true)
    (hroute : ns.route = some r)
    (harr : dist loc (coordOfDestination ns.destination) < 10) :
    (handleLocationUpdate dist e loc).engine.navigationState = none ∧
    ∃ pre, (handleLocationUpdate dist e loc).announcements =
      pre ++ ["You have arrived at your destination", "Navigation stopped"] := by
  rw [handleLocationUpdate_main dist e ns loc h hnav]
  simp only [updatePipeline]
  rcases hs1 : afterOffRoute dist { ns with currentLocation := some loc } loc
    with ⟨ns2, a1, n1⟩
  have hpres := afterOffRoute_preserves dist
    { ns with currentLocation := some loc } loc
  rw [hs1] at hpres
  have hroute2 : ns2.route = some r := hpres.1.trans hroute
  have harr2 : dist loc (coordOfDestination ns2.destination) < 10 := by
    have hd : ns2.destination = ns.destination := hpres.2.1
    rw [hd]; exact harr
  rw [updateNavigationProgress_arrival dist
    { e with navigationState := some ns2 } ns2 loc r rfl hroute2 harr2]
  refine ⟨?_, a1, ?_⟩ <;>
    simp [checkStepCompletion, notifyEmit, EngineState.idle]

/-- Witness for C5: with every distance 0 m, the fixture session arrives on
the next update: the session is destroyed and the final announcements are
the arrival message then "Navigation stopped". -/
theorem arrival_announces_then_stops_witness :
    (handleLocationUpdate flatDist eW locW).engine.navigationState = none ∧
    (handleLocationUpdate flatDist eW locW).announcements =
      ["You have arrived at your destination", "Navigation stopped"] :=
  ⟨(arrival_announces_then_stops flatDist eW nsW locW routeW (by rfl) (by rfl)
      (by rfl) (by norm_num [flatDist])).1, by rfl⟩

/-- Counterexample for C7: in the automatic-arrival scenario the update
that destroys the session delivers no notification at all —
`notifyStateChange` broadcasts nothing once `navigationState` is null, so
the subscriber receives neither a pre-arrival snapshot for this update nor
any "transition to Idle" notification; the claimed final two notifications
do not exist. -/
theorem stop_broadcast_missing_cex :
    (handleLocationUpdate flatDist eW locW).engine.navigationState = none ∧
    (handleLocationUpdate flatDist eW locW).notifications = [] ∧
    (stopNavigation eW).2.2 = [] := ⟨rfl, rfl, rfl⟩

/-- C7 (amended): a non-faulting location update after which a session
still exists ends with a broadcast of the complete current snapshot as its
last notification; but `stopNavigation` broadcasts nothing (the session is
already null when `notifyStateChange` runs), so a session-destroying update
delivers no Idle notification and the subscriber's last notification
remains an earlier full snapshot. -/
theorem update_ends_with_snapshot_broadcast (dist : Dist) (e : EngineState)
    (loc : LocationCoordinates) (s : NavState)
    (hnav : ∀ ns, e.navigationState = some ns → ns.isNavigating = true)
    (hok : (handleLocationUpdate dist e loc).faulted = false)
    (hs : (handleLocationUpdate dist e loc).engine.navigationState = some s) :
    (handleLocationUpdate dist e loc).notifications.getLast? = some s ∧
    ∀ e', (stopNavigation e').2.2 = [] := by
  constructor
  · rcases h : e.navigationState with _ | ns
    · rw [show handleLocationUpdate dist e loc =
          { engine := e, announcements := [], notifications := [],
            faulted := false } by unfold handleLocationUpdate; simp only [h]]
        at hs
      rw [h] at hs
      cases hs
    · rw [handleLocationUpdate_main dist e ns loc h (hnav ns h)] at hok hs ⊢
      simp only [updatePipeline] at hok hs ⊢
      generalize hg1 : afterOffRoute dist
        { ns with currentLocation := some loc } loc = s1 at hok hs ⊢
      generalize hg2 : updateNavigationProgress dist
        { e with navigationState := some s1.1 } loc = s2 at hok hs ⊢
      generalize hg3 : checkStepCompletion dist s2.1 loc = s3 at hok hs ⊢
      rcases s3 with ⟨e3, a3, f3⟩
      cases f3
      · simp only [Bool.false_eq_true, if_false] at hok hs ⊢
        have hne : notifyEmit e3 = [s] := by
          unfold notifyEmit
          rw [hs]
        rw [hne]
        exact List.getLast?_concat _
      · simp at hok
  · intro e'
    unfold stopNavigation
    rcases h : e'.navigationState with _ | ns <;>
      simp [h, notifyEmit, EngineState.idle]

/-- The off-route check of the fixture session is a no-op: the single
route vertex is 0 m away. -/
theorem checkOffRoute_w9 : checkOffRoute destDist
    { isNavigating := nsW9.isNavigating, currentStep := nsW9.currentStep,
      totalSteps := nsW9.totalSteps,
      remainingDistance := nsW9.remainingDistance,
      remainingTime := nsW9.remainingTime,
      nextInstruction := nsW9.nextInstruction, currentLocation := some locW,
      destination := nsW9.destination, route := nsW9.route,
      isOffRoute := nsW9.isOffRoute,
      recalculatingRoute := nsW9.recalculatingRoute } locW =
    ({ isNavigating := nsW9.isNavigating, currentStep := nsW9.currentStep,
       totalSteps := nsW9.totalSteps,
       remainingDistance := nsW9.remainingDistance,
       remainingTime := nsW9.remainingTime,
       nextInstruction := nsW9.nextInstruction, currentLocation := some locW,
       destination := nsW9.destination, route := nsW9.route,
       isOffRoute := nsW9.isOffRoute,
       recalculatingRoute := nsW9.recalculatingRoute }, [], false) := by
  have hdec : decide ((25 : ℚ) <
      minDistanceToRoute destDist routeW.coordinates locW) = false := by
    have hmin : minDistanceToRoute destDist routeW.coordinates locW =
        ((0 : ℚ) : WithTop ℚ) := by
      norm_num [minDistanceToRoute, destDist, routeW, coordOfVertex]
    rw [hmin]
    exact decide_eq_false (by exact_mod_cast (by norm_num : ¬(25:ℚ) < 0))
  have h1 := checkOffRoute_fst_some destDist
    { isNavigating := nsW9.isNavigating, currentStep := nsW9.currentStep,
      totalSteps := nsW9.totalSteps,
      remainingDistance := nsW9.remainingDistance,
      remainingTime := nsW9.remainingTime,
      nextInstruction := nsW9.nextInstruction, currentLocation := some locW,
      destination := nsW9.destination, route := nsW9.route,
      isOffRoute := nsW9.isOffRoute,
      recalculatingRoute := nsW9.recalculatingRoute } locW routeW rfl
  rw [hdec] at h1
  have h2 := checkOffRoute_snd destDist
    { isNavigating := nsW9.isNavigating, currentStep := nsW9.currentStep,
      totalSteps := nsW9.totalSteps,
      remainingDistance := nsW9.remainingDistance,
      remainingTime := nsW9.remainingTime,
      nextInstruction := nsW9.nextInstruction, currentLocation := some locW,
      destination := nsW9.destination, route := nsW9.route,
      isOffRoute := nsW9.isOffRoute,
      recalculatingRoute := nsW9.recalculatingRoute } locW routeW rfl
  rw [hdec] at h2
  simp only [Bool.and_false, Bool.false_eq_true, if_false] at h2
  refine Prod.ext ?_ ?_
  · rw [h1]
    norm_num [nsW9, nsW]
  · rw [h2]

/-- The whole off-route phase of the fixture update is a no-op. -/
theorem afterOffRoute_w9 : afterOffRoute destDist
    { isNavigating := nsW9.isNavigating, currentStep := nsW9.currentStep,
      totalSteps := nsW9.totalSteps,
      remainingDistance := nsW9.remainingDistance,
      remainingTime := nsW9.remainingTime,
      nextInstruction := nsW9.nextInstruction, currentLocation := some locW,
      destination := nsW9.destination, route := nsW9.route,
      isOffRoute := nsW9.isOffRoute,
      recalculatingRoute := nsW9.recalculatingRoute } locW =
    ({ isNavigating := nsW9.isNavigating, currentStep := nsW9.currentStep,
       totalSteps := nsW9.totalSteps,
       remainingDistance := nsW9.remainingDistance,
       remainingTime := nsW9.remainingTime,
       nextInstruction := nsW9.nextInstruction, currentLocation := some locW,
       destination := nsW9.destination, route := nsW9.route,
       isOffRoute := nsW9.isOffRoute,
       recalculatingRoute := nsW9.recalculatingRoute }, [], []) := by
  unfold afterOffRoute
  rw [checkOffRoute_w9]
  rfl

/-- The progress update of the fixture records 30 m remaining without
arriving. -/
theorem updateProgress_w9 : updateNavigationProgress destDist
    { navigationState := some
        { isNavigating := nsW9.isNavigating, currentStep := nsW9.currentStep,
          totalSteps := nsW9.totalSteps,
          remainingDistance := nsW9.remainingDistance,
          remainingTime := nsW9.remainingTime,
          nextInstruction := nsW9.nextInstruction,
          currentLocation := some locW,
          destination := nsW9.destination, route := nsW9.route,
          isOffRoute := nsW9.isOffRoute,
          recalculatingRoute := nsW9.recalculatingRoute },
      lastAnnouncedStep := eW9.lastAnnouncedStep } locW =
    ({ navigationState := some sW9,
       lastAnnouncedStep := eW9.lastAnnouncedStep }, [], []) := by
  simp only [updateNavigationProgress]
  norm_num [destDist, coordOfDestination, sW9, nsW9, nsW, routeW]

/-- The step-completion check of the fixture does not advance (single
instruction). -/
theorem checkStep_w9 : checkStepCompletion destDist
    { navigationState := some sW9,
      lastAnnouncedStep := eW9.lastAnnouncedStep } locW =
    ({ navigationState := some sW9,
       lastAnnouncedStep := eW9.lastAnnouncedStep }, [], false) := by
  unfold checkStepCompletion
  norm_num [sW9, nsW9, nsW, routeW]

/-- The full fixture update: survives, does not fault, announces nothing
and delivers exactly the final snapshot `sW9`. -/
theorem handleLocationUpdate_w9 : handleLocationUpdate destDist eW9 locW =
    { engine := { navigationState := some sW9,
                  lastAnnouncedStep := eW9.lastAnnouncedStep },
      announcements := [], notifications := [sW9], faulted := false } := by
  rw [handleLocationUpdate_main destDist eW9 nsW9 locW rfl rfl]
  simp only [updatePipeline, afterOffRoute_w9, updateProgress_w9,
    checkStep_w9, notifyEmit]
  rfl

/-- Witness for the amended C7: a surviving fixture update's last
notification is the full final snapshot `sW9`, and `stopNavigation`
broadcasts nothing. -/
theorem update_ends_with_snapshot_broadcast_witness :
    (handleLocationUpdate destDist eW9 locW).notifications.getLast? =
      some sW9 ∧
    (stopNavigation EngineState.idle).2.2 = [] := by
  have h := update_ends_with_snapshot_broadcast destDist eW9 locW sW9
    (by intro ns h; cases h; rfl)
    (by rw [handleLocationUpdate_w9]) (by rw [handleLocationUpdate_w9])
  exact ⟨h.1, h.2 EngineState.idle⟩

/-- `SessionInv` transports across sessions whose step/route fields are
unchanged. -/
theorem sessionInv_of_eq (ns ns' : NavState)
    (h1 : ns'.currentStep = ns.currentStep)
    (h2 : ns'.totalSteps = ns.totalSteps) (h3 : ns'.route = ns.route) :
    SessionInv ns → SessionInv ns' := by
  rintro ⟨a, b⟩
  constructor
  · rw [h1, h2]; exact a
  · intro r hr
    rw [h2]
    exact b r (by rw [← h3]; exact hr)

/-- The idle engine satisfies the step-index invariant vacuously. -/
theorem stepIndexInv_idle : StepIndexInv EngineState.idle := by
  intro ns h
  simp [EngineState.idle] at h

/-- `stopNavigation` preserves the step-index invariant. -/
theorem stopNavigation_inv (e : EngineState) (hInv : StepIndexInv e) :
    StepIndexInv (stopNavigation e).1 := by
  unfold stopNavigation
  rcases h : e.navigationState with _ | ns
  · simp only [h]; exact hInv
  · simp only [h]; exact stepIndexInv_idle

/-- `handleArrival` preserves the step-index invariant. -/
theorem handleArrival_inv (e : EngineState) (hInv : StepIndexInv e) :
    StepIndexInv (handleArrival e).1 := by
  unfold handleArrival
  rcases h : e.navigationState with _ | ns
  · simp only [h]; exact hInv
  · simp only [h]
    have hstop := stopNavigation_inv e hInv
    rcases hst : stopNavigation e with ⟨e', a, n⟩
    rw [hst] at hstop
    exact hstop

/-- `updateNavigationProgress` preserves the step-index invariant. -/
theorem updateNavigationProgress_inv (dist : Dist) (e : EngineState)
    (loc : LocationCoordinates) (hInv : StepIndexInv e) :
    StepIndexInv (updateNavigationProgress dist e loc).1 := by
  unfold updateNavigationProgress
  rcases h : e.navigationState with _ | ns
  · simp only [h]; exact hInv
  · simp only [h]
    rcases hr : ns.route with _ | r
    · simp only [hr]; exact hInv
    · simp only [hr]
      split
      · apply handleArrival_inv
        intro ns' h'
        obtain rfl := Option.some.inj h'
        exact sessionInv_of_eq ns _ rfl rfl hr.symm (hInv ns h)
      · intro ns' h'
        obtain rfl := Option.some.inj h'
        exact sessionInv_of_eq ns _ rfl rfl hr.symm (hInv ns h)

/-- `advanceToNextStep`, called under the step-completion guard, preserves
the step-index invariant: the incremented index stays within the
instruction count. -/
theorem advanceToNextStep_inv (e : EngineState) (ns : NavState)
    (r : RouteResponse) (h : e.navigationState = some ns)
    (hr : ns.route = some r)
    (hguard : ns.currentStep + 1 < r.instructions.length)
    (hInv : StepIndexInv e) : StepIndexInv (advanceToNextStep e).1 := by
  have htot : ns.totalSteps = r.instructions.length := (hInv ns h).2 r hr
  unfold advanceToNextStep
  simp only [h, hr]
  rw [dif_pos hguard]
  split
  · intro ns' h'
    obtain rfl := Option.some.inj h'
    refine ⟨?_, ?_⟩
    · show ns.currentStep + 1 ≤ ns.totalSteps
      rw [htot]; exact le_of_lt hguard
    · intro r2 hr2
      obtain rfl := Option.some.inj hr2
      show ns.totalSteps = r.instructions.length
      exact htot
  · intro ns' h'
    obtain rfl := Option.some.inj h'
    refine ⟨?_, ?_⟩
    · show ns.currentStep + 1 ≤ ns.totalSteps
      rw [htot]; exact le_of_lt hguard
    · intro r2 hr2
      obtain rfl := Option.some.inj hr2
      show ns.totalSteps = r.instructions.length
      exact htot

/-- `checkStepCompletion` preserves the step-index invariant. -/
theorem checkStepCompletion_inv (dist : Dist) (e : EngineState)
    (loc : LocationCoordinates) (hInv : StepIndexInv e) :
    StepIndexInv (checkStepCompletion dist e loc).1 := by
  unfold checkStepCompletion
  rcases h : e.navigationState with _ | ns
  · simp only [h]; exact hInv
  · simp only [h]
    rcases hr : ns.route with _ | r
    · simp only [hr]; exact hInv
    · simp only [hr]
      split
      · rename_i hguard
        split
        · exact hInv
        · split
          · have hadv := advanceToNextStep_inv e ns r h hr hguard hInv
            rcases ha : advanceToNextStep e with ⟨e', a⟩
            rw [ha] at hadv
            exact hadv
          · exact hInv
      · exact hInv

/-- `startNavigation` establishes the step-index invariant: a fresh session
starts at step 0 with `totalSteps` the instruction count of its route. -/
theorem startNavigation_inv (e : EngineState) (loc : LocationServiceState)
    (nowMs : ℚ) (fetch : Except LocationError LocationCoordinates)
    (destination : RoutePoint) (route : RouteResponse)
    (hInv : StepIndexInv e) :
    StepIndexInv (startNavigation e loc nowMs fetch destination
      route).engine := by
  unfold startNavigation
  split
  · exact hInv
  · intro ns h
    obtain rfl := Option.some.inj h
    refine ⟨Nat.zero_le _, ?_⟩
    intro r hr
    obtain rfl := Option.some.inj hr
    rfl

/-- Every recalculation completion preserves the step-index invariant. -/
theorem recalcComplete_inv (e : EngineState) (o : RecalcOutcome)
    (hInv : StepIndexInv e) :
    StepIndexInv (recalcComplete e o).engineState := by
  unfold recalcComplete
  rcases h : e.navigationState with _ | ns
  · cases o <;> simp only [h] <;> exact hInv
  · cases o
    case ok r =>
      simp only [h]
      intro ns' h'
      obtain rfl := Option.some.inj h'
      refine ⟨Nat.zero_le _, ?_⟩
      intro r2 hr2
      obtain rfl := Option.some.inj hr2
      rfl
    case noRoute =>
      simp only [h]
      intro ns' h'
      obtain rfl := Option.some.inj h'
      exact sessionInv_of_eq ns _ rfl rfl rfl (hInv ns h)
    case err =>
      simp only [h]
      intro ns' h'
      obtain rfl := Option.some.inj h'
      exact sessionInv_of_eq ns _ rfl rfl rfl (hInv ns h)

/-- Every processed location update preserves the step-index invariant. -/
theorem handleLocationUpdate_inv (dist : Dist) (e : EngineState)
    (loc : LocationCoordinates) (hInv : StepIndexInv e) :
    StepIndexInv (handleLocationUpdate dist e loc).engine := by
  unfold handleLocationUpdate
  rcases h : e.navigationState with _ | ns
  · simp only [h]; exact hInv
  · simp only [h]
    split
    · exact hInv
    · have hInv1 : StepIndexInv { e with navigationState := some (afterOffRoute dist { ns with currentLocation := some loc } loc).1 } := by
        intro ns' h'
        obtain rfl := Option.some.inj h'
        have hp := afterOffRoute_preserves dist
          { ns with currentLocation := some loc } loc
        exact sessionInv_of_eq ns _ hp.2.2.1 hp.2.2.2.1 hp.1 (hInv ns h)
      have h2 := updateNavigationProgress_inv dist _ loc hInv1
      have h3 := checkStepCompletion_inv dist _ loc h2
      simp only [updatePipeline]
      split <;> exact h3

/-- C8: the step-index invariant `0 ≤ currentStep ≤ totalSteps`, with
`totalSteps` equal to the length of the active route's instruction list, is
established at session creation and preserved by every processed location
update and every recalculation outcome, hence holds in every reachable
session state. -/
theorem step_index_invariant_preserved (dist : Dist) (e : EngineState)
    (loc : LocationServiceState) (nowMs : ℚ)
    (fetch : Except LocationError LocationCoordinates)
    (destination : RoutePoint) (route : RouteResponse)
    (l : LocationCoordinates) (outcome : RecalcOutcome)
    (hInv : StepIndexInv e) :
    StepIndexInv (startNavigation e loc nowMs fetch destination
      route).engine ∧
    StepIndexInv (handleLocationUpdate dist e l).engine ∧
    StepIndexInv (recalcComplete e outcome).engineState :=
  ⟨startNavigation_inv e loc nowMs fetch destination route hInv,
    handleLocationUpdate_inv dist e l hInv,
    recalcComplete_inv e outcome hInv⟩

/-- Witness for C8: the invariant holds for the fixture session and is
preserved across a concrete update and a concrete failed recalculation. -/
theorem step_index_invariant_preserved_witness :
    StepIndexInv (handleLocationUpdate flatDist eW locW).engine ∧
    StepIndexInv (recalcComplete eW .err).engineState := by
  have hInvW : StepIndexInv eW := by
    intro ns h
    obtain rfl := Option.some.inj h
    refine ⟨Nat.zero_le _, ?_⟩
    intro r hr
    obtain rfl := Option.some.inj hr
    rfl
  have h := step_index_invariant_preserved flatDist eW {} 0 (.error errFix)
    ⟨0, 0⟩ routeW locW .err hInvW
  exact ⟨h.2.1, h.2.2⟩

end UniWay
